import Mathlib

namespace ADHDClock

/-!
Shallow embedding of the core of `src/main.py` (ADHDClock): the waveform
synthesis of `SoundGenerator`, the scheduling state of `AlarmManager`, the
countdown arithmetic of `CountdownOverlay.update_countdown`, and the
configuration aliasing of `SettingsWindow.test_sound`.
-/

/-- Fixed sample rate, `self.sample_rate = 44100` in `SoundGenerator.__init__`. -/
def sample_rate : ℝ := 44100

/-- Truncation toward zero on reals: the conversion applied by Python
`int(...)` and by numpy `astype` to each floating-point entry. -/
noncomputable def intTrunc (x : ℝ) : ℤ := if 0 ≤ x then ⌊x⌋ else ⌈x⌉

/-- Reduction of an integer to the signed 16-bit two's-complement range,
the wrap performed by `astype(np.int16)` on an integer value. -/
def int16ofInt (v : ℤ) : ℤ := (v + 32768) % 65536 - 32768

/-- Sign function of numpy, `np.sign`: -1 for negative, 1 for positive,
0 at zero. -/
noncomputable def npSign (x : ℝ) : ℝ := if x < 0 then -1 else if 0 < x then 1 else 0

/-- Sample count `int(duration * self.sample_rate)` used by every
`generate_*_wave` method. -/
noncomputable def numSamples (duration : ℝ) : ℕ := (intTrunc (duration * sample_rate)).toNat

/-- Entry `k` of `np.linspace(0, duration, n, False)`: with the endpoint
excluded the step is `duration / n`, so entry `k` is `duration * k / n`. -/
noncomputable def timeSample (duration : ℝ) (n k : ℕ) : ℝ := duration * k / n

/-- Quantization `(wave * 32767).astype(np.int16)` applied to one sample. -/
noncomputable def quantize (w : ℝ) : ℤ := int16ofInt (intTrunc (w * 32767))

/-- Sample `k` of `generate_sine_wave`: `np.sin(2 * np.pi * frequency * t) * 0.5`
then quantized. -/
noncomputable def sineSample (frequency duration : ℝ) (k : ℕ) : ℤ :=
  quantize (Real.sin (2 * Real.pi * frequency * timeSample duration (numSamples duration) k) * 0.5)

/-- Sample `k` of `generate_square_wave`:
`np.sign(np.sin(2 * np.pi * frequency * t)) * 0.5` then quantized. -/
noncomputable def squareSample (frequency duration : ℝ) (k : ℕ) : ℤ :=
  quantize (npSign (Real.sin (2 * Real.pi * frequency * timeSample duration (numSamples duration) k)) * 0.5)

/-- Sample `k` of `generate_sawtooth_wave`:
`2 * (t * frequency - np.floor(t * frequency + 0.5)) * 0.5` then quantized. -/
noncomputable def sawtoothSample (frequency duration : ℝ) (k : ℕ) : ℤ :=
  quantize (2 * (timeSample duration (numSamples duration) k * frequency -
    (⌊timeSample duration (numSamples duration) k * frequency + 0.5⌋ : ℝ)) * 0.5)

/-- Sample `k` of `generate_triangle_wave`:
`(2 * np.abs(2 * (t * frequency - np.floor(t * frequency + 0.5))) - 1) * 0.5`
then quantized. -/
noncomputable def triangleSample (frequency duration : ℝ) (k : ℕ) : ℤ :=
  quantize ((2 * |2 * (timeSample duration (numSamples duration) k * frequency -
    (⌊timeSample duration (numSamples duration) k * frequency + 0.5⌋ : ℝ))| - 1) * 0.5)

/-- The mono buffer returned by `generate_sine_wave(frequency, duration)`. -/
noncomputable def generate_sine_wave (frequency duration : ℝ) : List ℤ :=
  List.ofFn fun k : Fin (numSamples duration) => sineSample frequency duration k

/-- The mono buffer returned by `generate_square_wave(frequency, duration)`. -/
noncomputable def generate_square_wave (frequency duration : ℝ) : List ℤ :=
  List.ofFn fun k : Fin (numSamples duration) => squareSample frequency duration k

/-- The mono buffer returned by `generate_sawtooth_wave(frequency, duration)`. -/
noncomputable def generate_sawtooth_wave (frequency duration : ℝ) : List ℤ :=
  List.ofFn fun k : Fin (numSamples duration) => sawtoothSample frequency duration k

/-- The mono buffer returned by `generate_triangle_wave(frequency, duration)`. -/
noncomputable def generate_triangle_wave (frequency duration : ℝ) : List ℤ :=
  List.ofFn fun k : Fin (numSamples duration) => triangleSample frequency duration k

/-- The four waveform kinds of the sound configuration. -/
inductive WaveKind
  | sine
  | square
  | sawtooth
  | triangle
deriving DecidableEq

/-- Per-kind sample function, indexing the four `generate_*_wave` methods. -/
noncomputable def waveSample : WaveKind → ℝ → ℝ → ℕ → ℤ
  | .sine => sineSample
  | .square => squareSample
  | .sawtooth => sawtoothSample
  | .triangle => triangleSample

/-- Per-kind rendered buffer, indexing the four `generate_*_wave` methods. -/
noncomputable def waveBuffer : WaveKind → ℝ → ℝ → List ℤ
  | .sine => generate_sine_wave
  | .square => generate_square_wave
  | .sawtooth => generate_sawtooth_wave
  | .triangle => generate_triangle_wave

/-- The waveform dispatch inside `play_sound`: `if selected_type == "sine" ...
elif "square" ... elif "sawtooth" ... else` triangle. The final branch is an
unconditional `else`, so every unknown name falls through to triangle. -/
noncomputable def play_sound_wave (selected_type : String) (frequency duration : ℝ) : List ℤ :=
  if selected_type = "sine" then generate_sine_wave frequency duration
  else if selected_type = "square" then generate_square_wave frequency duration
  else if selected_type = "sawtooth" then generate_sawtooth_wave frequency duration
  else generate_triangle_wave frequency duration

/-- Waveform formulas exactly as the specification writes them (before the
amplitude scaling by 0.5 and the 16-bit quantization): sine `sin(2 pi f t)`,
square `sign(sin(2 pi f t))`, sawtooth `2 (f t - floor(f t + 0.5))`, triangle
`2 |2 (f t - floor(f t + 0.5))| - 1`. Used to compare the code's output
against the spec text. -/
noncomputable def specWaveform : WaveKind → ℝ → ℝ → ℝ
  | .sine, f, t => Real.sin (2 * Real.pi * f * t)
  | .square, f, t => npSign (Real.sin (2 * Real.pi * f * t))
  | .sawtooth, f, t => 2 * (f * t - (⌊f * t + 0.5⌋ : ℝ))
  | .triangle, f, t => 2 * |2 * (f * t - (⌊f * t + 0.5⌋ : ℝ))| - 1

/-- Model of `random.randint(lo, hi)` (both endpoints inclusive): the random
draw is an arbitrary natural number `r` reduced into the range. -/
def randint (lo hi : ℤ) (r : ℕ) : ℤ := lo + (r : ℤ) % (hi - lo + 1)

/-- The `sound` sub-dictionary of the configuration. -/
structure SoundConfig where
  type : List String
  frequency_min : ℤ
  frequency_max : ℤ

/-- The `alarm` sub-dictionary of the configuration. -/
structure AlarmConfig where
  enabled : Bool
  duration : ℝ
  interval : ℤ

/-- Mutable state of `SoundGenerator`: the `playing` flag and the playback
handle `play_obj` (an opaque reference, modelled as an optional id). -/
structure PlaybackState where
  playing : Bool
  play_obj : Option ℕ
deriving DecidableEq

/-- Observable outcome of one `play_sound` call: the final state, the
rendered waveform if a render occurred, and whether a playback error was
caught and logged. -/
structure PlayResult where
  state : PlaybackState
  rendered : Option (List ℤ)
  loggedError : Bool

/-- Model of `SoundGenerator.play_sound` as one atomic transition (the whole
body runs under `self._lock`). `rType` and `rFreq` are the random draws for
`random.choice` and `random.randint`; `playbackFails` records whether
`sa.play_buffer` or `wait_done` raised (that exception is caught and logged,
and the `finally` block clears `playing` and `play_obj`). The result `none`
is an uncaught exception: `random.choice` on an empty type list raises
outside the `try` block. -/
noncomputable def play_sound (sound_config : SoundConfig) (alarm_config : AlarmConfig)
    (st : PlaybackState) (rType rFreq : ℕ) (playbackFails : Bool) :
    Option PlayResult :=
  if st.playing then
    some { state := st, rendered := none, loggedError := false }
  else
    match sound_config.type[rType % sound_config.type.length]? with
    | none => none
    | some selected_type =>
      let selected_frequency := randint sound_config.frequency_min sound_config.frequency_max rFreq
      let wave := play_sound_wave selected_type (selected_frequency : ℝ) alarm_config.duration
      some { state := { playing := false, play_obj := none },
             rendered := some wave,
             loggedError := playbackFails }

/-- State of the Qt timer owned by `AlarmManager`. -/
structure TimerState where
  running : Bool
  interval_ms : ℤ

/-- Mutable state of `AlarmManager` (plus the visibility of the countdown
window it shows and hides). -/
structure AlarmManagerState where
  active : Bool
  last_trigger_time : ℤ
  timer : TimerState
  countdownVisible : Bool

/-- Model of `AlarmManager.start_alarm`: returns unchanged if already active;
otherwise sets `active`, records `last_trigger_time = now`, starts the timer
with `interval * 1000` milliseconds and shows the countdown. -/
def start_alarm (now interval_s : ℤ) (m : AlarmManagerState) : AlarmManagerState :=
  if m.active then m
  else
    { active := true
      last_trigger_time := now
      timer := { running := true, interval_ms := interval_s * 1000 }
      countdownVisible := true }

/-- Model of `AlarmManager.stop_alarm`: clears `active`, stops the timer and
hides the countdown. -/
def stop_alarm (m : AlarmManagerState) : AlarmManagerState :=
  { m with active := false,
           timer := { m.timer with running := false },
           countdownVisible := false }

/-- Model of `AlarmManager.alarm_callback`: updates `last_trigger_time` and
re-reads the interval from configuration. The sound is played on a separate
thread and its outcome is not an input of this transition. -/
def alarm_callback (now interval_s : ℤ) (m : AlarmManagerState) : AlarmManagerState :=
  { m with last_trigger_time := now,
           timer := { m.timer with interval_ms := interval_s * 1000 } }

/-- The remaining-time computation of `CountdownOverlay.update_countdown`:
`interval_ms = interval * 1000`, `elapsed_ms = (now - last_trigger_time) %
interval_ms`, `remaining_ms = interval_ms - elapsed_ms`. -/
def remaining_ms (interval_s now_ms last_trigger_ms : ℤ) : ℤ :=
  let interval_ms := interval_s * 1000
  let elapsed_ms := (now_ms - last_trigger_ms) % interval_ms
  interval_ms - elapsed_ms

/-- Heap of configuration sub-dictionaries: Python dict values are
references, so the `sound` and `alarm` sub-dictionaries live in cells
addressed by natural numbers. -/
structure ConfigHeap where
  soundCells : ℕ → SoundConfig
  alarmCells : ℕ → AlarmConfig

/-- A top-level configuration dictionary: it holds references to (not copies
of) its sub-dictionaries. -/
structure ConfigDict where
  soundRef : ℕ
  alarmRef : ℕ

/-- Python `dict.copy()`: a new top-level dictionary holding the same
sub-dictionary references (a shallow copy). -/
def dictCopy (d : ConfigDict) : ConfigDict := { soundRef := d.soundRef, alarmRef := d.alarmRef }

/-- In-place update of the sound sub-dictionary stored in cell `ref`. -/
def writeSound (h : ConfigHeap) (ref : ℕ) (f : SoundConfig → SoundConfig) : ConfigHeap :=
  { h with soundCells := fun i => if i = ref then f (h.soundCells i) else h.soundCells i }

/-- In-place update of the alarm sub-dictionary stored in cell `ref`. -/
def writeAlarm (h : ConfigHeap) (ref : ℕ) (f : AlarmConfig → AlarmConfig) : ConfigHeap :=
  { h with alarmCells := fun i => if i = ref then f (h.alarmCells i) else h.alarmCells i }

/-- The kind list built by `SettingsWindow.test_sound`: the explicit
`sound_type` argument if given, else the checked boxes, defaulting to
`["sine"]` when nothing is checked. -/
def test_sound_types (sound_type : Option String)
    (sineChecked squareChecked sawtoothChecked triangleChecked : Bool) : List String :=
  match sound_type with
  | some t => [t]
  | none =>
    let l := (if sineChecked then ["sine"] else []) ++
             (if squareChecked then ["square"] else []) ++
             (if sawtoothChecked then ["sawtooth"] else []) ++
             (if triangleChecked then ["triangle"] else [])
    if l = [] then ["sine"] else l

/-- Model of `SettingsWindow.test_sound`: `temp_config = config.copy()` is a
shallow copy, after which the sound type list, the frequency bounds read from
the sliders and a 1.0 second alarm duration are written through the shared
sub-dictionary references. Returns the heap after the writes. -/
def test_sound (live : ConfigDict) (h : ConfigHeap) (sound_type : Option String)
    (sineChecked squareChecked sawtoothChecked triangleChecked : Bool)
    (freq_min_val freq_max_val : ℤ) : ConfigHeap :=
  let temp_config := dictCopy live
  let kinds := test_sound_types sound_type sineChecked squareChecked sawtoothChecked triangleChecked
  let h1 := writeSound h temp_config.soundRef fun s => { s with type := kinds }
  let h2 := writeSound h1 temp_config.soundRef fun s => { s with frequency_min := freq_min_val }
  let h3 := writeSound h2 temp_config.soundRef fun s => { s with frequency_max := freq_max_val }
  writeAlarm h3 temp_config.alarmRef fun a => { a with duration := 1 }

/-! Helper lemmas about the quantization pipeline. -/

lemma int16ofInt_eq_self {v : ℤ} (h1 : -32768 ≤ v) (h2 : v ≤ 32767) : int16ofInt v = v := by
  have h3 : (0:ℤ) ≤ v + 32768 := by omega
  have h4 : v + 32768 < 65536 := by omega
  unfold int16ofInt
  rw [Int.emod_eq_of_lt h3 h4]
  omega

lemma intTrunc_abs_le {x : ℝ} (h : |x| ≤ 16383.5) :
    -16383 ≤ intTrunc x ∧ intTrunc x ≤ 16383 := by
  rw [abs_le] at h
  unfold intTrunc
  by_cases hx : 0 ≤ x
  · rw [if_pos hx]
    have hub : ⌊x⌋ < 16384 := by
      rw [Int.floor_lt]
      push_cast
      linarith [h.2]
    have hlb : (0:ℤ) ≤ ⌊x⌋ := Int.floor_nonneg.mpr hx
    omega
  · rw [if_neg hx]
    push_neg at hx
    have hub : ⌈x⌉ ≤ 0 := Int.ceil_le.mpr (by push_cast; linarith)
    have hlb : -16384 < ⌈x⌉ := by
      rw [Int.lt_ceil]
      push_cast
      linarith [h.1]
    omega

lemma quantize_eq_intTrunc_of_abs_le {s : ℝ} (h : |s| ≤ 1) :
    quantize (s * 0.5) = intTrunc (s * 0.5 * 32767) := by
  obtain ⟨hl, hr⟩ := abs_le.mp h
  have hb : |s * 0.5 * 32767| ≤ 16383.5 := by
    rw [abs_le]
    constructor <;> nlinarith
  obtain ⟨h1, h2⟩ := intTrunc_abs_le hb
  unfold quantize
  exact int16ofInt_eq_self (by omega) (by omega)

lemma abs_sin_le_one' (x : ℝ) : |Real.sin x| ≤ 1 :=
  abs_le.mpr ⟨Real.neg_one_le_sin x, Real.sin_le_one x⟩

lemma abs_npSign_le_one (x : ℝ) : |npSign x| ≤ 1 := by
  unfold npSign
  split
  · norm_num
  · split <;> norm_num

lemma abs_sawtooth_core_le_one (y : ℝ) : |2 * (y - (⌊y + 0.5⌋ : ℝ))| ≤ 1 := by
  have h1 : ((⌊y + 0.5⌋ : ℤ) : ℝ) ≤ y + 0.5 := Int.floor_le _
  have h2 : y + 0.5 < ⌊y + 0.5⌋ + 1 := Int.lt_floor_add_one _
  rw [abs_le]
  constructor <;> [linarith; linarith]

lemma abs_triangle_core_le_one (y : ℝ) :
    |2 * |2 * (y - (⌊y + 0.5⌋ : ℝ))| - 1| ≤ 1 := by
  have h := abs_sawtooth_core_le_one y
  have h0 : (0:ℝ) ≤ |2 * (y - (⌊y + 0.5⌋ : ℝ))| := abs_nonneg _
  rw [abs_le]
  constructor <;> linarith

lemma numSamples_one : numSamples 1 = 44100 := by
  unfold numSamples intTrunc sample_rate
  rw [if_pos (by norm_num)]
  rw [show (1:ℝ) * 44100 = ((44100:ℤ) : ℝ) by norm_num, Int.floor_intCast]
  rfl

/-- C2 (amended): for every waveform kind, frequency, duration and sample
index, the emitted 16-bit value equals the specification's waveform formula
scaled by 0.5 and 32767 and then truncated toward zero (the effect of
`astype(np.int16)`), not rounded. -/
theorem quantization_is_truncation (kind : WaveKind) (f d : ℝ) (k : ℕ) :
    waveSample kind f d k =
      intTrunc (specWaveform kind f (timeSample d (numSamples d) k) * 0.5 * 32767) := by
  cases kind
  case sine =>
    unfold waveSample sineSample specWaveform
    exact quantize_eq_intTrunc_of_abs_le (abs_sin_le_one' _)
  case square =>
    unfold waveSample squareSample specWaveform
    exact quantize_eq_intTrunc_of_abs_le (abs_npSign_le_one _)
  case sawtooth =>
    show quantize (2 * (timeSample d (numSamples d) k * f -
        (⌊timeSample d (numSamples d) k * f + 0.5⌋ : ℝ)) * 0.5) =
      intTrunc (2 * (f * timeSample d (numSamples d) k -
        (⌊f * timeSample d (numSamples d) k + 0.5⌋ : ℝ)) * 0.5 * 32767)
    rw [mul_comm (timeSample d (numSamples d) k) f]
    exact quantize_eq_intTrunc_of_abs_le (abs_sawtooth_core_le_one _)
  case triangle =>
    show quantize ((2 * |2 * (timeSample d (numSamples d) k * f -
        (⌊timeSample d (numSamples d) k * f + 0.5⌋ : ℝ))| - 1) * 0.5) =
      intTrunc ((2 * |2 * (f * timeSample d (numSamples d) k -
        (⌊f * timeSample d (numSamples d) k + 0.5⌋ : ℝ))| - 1) * 0.5 * 32767)
    rw [mul_comm (timeSample d (numSamples d) k) f]
    exact quantize_eq_intTrunc_of_abs_le (abs_triangle_core_le_one _)

/-- C2 (counterexample): the claim that quantization is rounding is false.
At the sawtooth wave with frequency 100, duration 1 and sample index 2 the
code emits `trunc(65534/441) = 148`, while `round(65534/441) = 149`. -/
theorem quantization_not_round :
    ¬ ∀ (kind : WaveKind) (f d : ℝ) (k : ℕ),
        waveSample kind f d k =
          round (specWaveform kind f (timeSample d (numSamples d) k) * 0.5 * 32767) := by
  intro hcl
  have h := hcl .sawtooth 100 1 2
  have ht : timeSample 1 (numSamples 1) 2 = 1 / 22050 := by
    rw [numSamples_one]
    unfold timeSample
    norm_num
  have htf : timeSample 1 (numSamples 1) 2 * 100 = 2 / 441 := by rw [ht]; norm_num
  have hft : (100:ℝ) * timeSample 1 (numSamples 1) 2 = 2 / 441 := by rw [ht]; norm_num
  have hfl : ⌊(2/441 : ℝ) + 0.5⌋ = 0 := by
    rw [Int.floor_eq_iff]
    constructor <;> norm_num
  have hL : waveSample .sawtooth 100 1 2 = 148 := by
    show quantize (2 * (timeSample 1 (numSamples 1) 2 * 100 -
        (⌊timeSample 1 (numSamples 1) 2 * 100 + 0.5⌋ : ℝ)) * 0.5) = 148
    rw [htf, hfl]
    have harg : (2 * ((2:ℝ)/441 - ((0:ℤ) : ℝ)) * 0.5) * 32767 = 65534/441 := by
      push_cast
      ring
    unfold quantize
    rw [harg]
    unfold intTrunc
    rw [if_pos (by norm_num)]
    rw [show ⌊(65534/441 : ℝ)⌋ = 148 by rw [Int.floor_eq_iff]; constructor <;> norm_num]
    decide
  have hR : round (specWaveform WaveKind.sawtooth 100 (timeSample 1 (numSamples 1) 2)
      * 0.5 * 32767) = 149 := by
    show round (2 * ((100:ℝ) * timeSample 1 (numSamples 1) 2 -
        (⌊(100:ℝ) * timeSample 1 (numSamples 1) 2 + 0.5⌋ : ℝ)) * 0.5 * 32767) = 149
    rw [hft, hfl]
    rw [show (2 * ((2:ℝ)/441 - ((0:ℤ) : ℝ)) * 0.5 * 32767) = 65534/441 by push_cast; ring]
    rw [round_eq]
    rw [show (65534/441 : ℝ) + 1/2 = 131509/882 by norm_num]
    rw [Int.floor_eq_iff]
    constructor <;> norm_num
  rw [hL] at h
  rw [hR] at h
  exact absurd h (by decide)

lemma waveBuffer_length (kind : WaveKind) (f d : ℝ) :
    (waveBuffer kind f d).length = numSamples d := by
  cases kind <;>
    simp [waveBuffer, generate_sine_wave, generate_square_wave,
      generate_sawtooth_wave, generate_triangle_wave]

lemma numSamples_of_nonneg {d : ℝ} (hd : 0 ≤ d) :
    numSamples d = (⌊d * 44100⌋).toNat := by
  unfold numSamples intTrunc sample_rate
  rw [if_pos (mul_nonneg hd (by norm_num))]

/-- C3: for every supported waveform kind the rendered mono buffer has
exactly `floor(duration * 44100)` samples when the duration is non-negative;
duration 1.0 gives exactly 44100 samples and duration 0 gives the empty
buffer. -/
theorem sample_count_spec (kind : WaveKind) (f : ℝ) :
    (∀ d : ℝ, 0 ≤ d → (waveBuffer kind f d).length = (⌊d * 44100⌋).toNat) ∧
    (waveBuffer kind f 1).length = 44100 ∧
    waveBuffer kind f 0 = [] := by
  refine ⟨?_, ?_, ?_⟩
  · intro d hd
    rw [waveBuffer_length, numSamples_of_nonneg hd]
  · rw [waveBuffer_length, numSamples_one]
  · have h := waveBuffer_length kind f 0
    have h0 : numSamples 0 = 0 := by
      unfold numSamples intTrunc
      norm_num
    rw [h0] at h
    exact List.length_eq_zero.mp h

theorem sample_count_spec_witness :
    (0:ℝ) ≤ 1/2 ∧ (waveBuffer .sine 440 (1/2)).length = (⌊(1/2 : ℝ) * 44100⌋).toNat :=
  ⟨by norm_num, (sample_count_spec .sine 440).1 (1/2) (by norm_num)⟩

/-- C4: the countdown computation equals
`interval_ms - ((now - last_trigger_time) mod interval_ms)`; immediately
after start (`now = last_trigger_time`) it equals `interval_ms`, and for
`last_trigger_time <= now` and a positive interval it lies in
`(0, interval_ms]`, in particular it is never negative. -/
theorem remaining_time_spec (interval_s now_ms last_trigger_ms : ℤ)
    (hpos : 0 < interval_s) (hle : last_trigger_ms ≤ now_ms) :
    remaining_ms interval_s now_ms last_trigger_ms =
      interval_s * 1000 - (now_ms - last_trigger_ms) % (interval_s * 1000) ∧
    (now_ms = last_trigger_ms →
      remaining_ms interval_s now_ms last_trigger_ms = interval_s * 1000) ∧
    0 < remaining_ms interval_s now_ms last_trigger_ms ∧
    remaining_ms interval_s now_ms last_trigger_ms ≤ interval_s * 1000 := by
  have hm : (0:ℤ) < interval_s * 1000 := by omega
  have h0 : 0 ≤ (now_ms - last_trigger_ms) % (interval_s * 1000) :=
    Int.emod_nonneg _ (by omega)
  have h1 : (now_ms - last_trigger_ms) % (interval_s * 1000) < interval_s * 1000 :=
    Int.emod_lt_of_pos _ hm
  refine ⟨rfl, ?_, ?_, ?_⟩
  · intro hnow
    simp only [remaining_ms]
    rw [hnow, sub_self, Int.zero_emod, sub_zero]
  · simp only [remaining_ms]
    linarith
  · simp only [remaining_ms]
    linarith

theorem remaining_time_spec_witness :
    remaining_ms 30 1000 1000 = 30 * 1000 :=
  (remaining_time_spec 30 1000 1000 (by decide) le_rfl).2.1 rfl

/-- C5: `start_alarm` is a no-op when already active; otherwise it sets
`active`, records `last_trigger_time = now` and arms the timer with the
configured interval in milliseconds; after any `stop_alarm` a following
`start_alarm` records the new start time as `last_trigger_time`. -/
theorem start_alarm_spec (now interval_s : ℤ) (m : AlarmManagerState) :
    (m.active = true → start_alarm now interval_s m = m) ∧
    (m.active = false →
      (start_alarm now interval_s m).active = true ∧
      (start_alarm now interval_s m).last_trigger_time = now ∧
      (start_alarm now interval_s m).timer.running = true ∧
      (start_alarm now interval_s m).timer.interval_ms = interval_s * 1000) ∧
    (∀ now2 interval2 : ℤ,
      (start_alarm now2 interval2 (stop_alarm m)).last_trigger_time = now2) := by
  refine ⟨?_, ?_, ?_⟩
  · intro h
    simp [start_alarm, h]
  · intro h
    simp [start_alarm, h]
  · intro now2 interval2
    simp [start_alarm, stop_alarm]

theorem start_alarm_spec_witness :
    start_alarm 99 7 ⟨true, 5, ⟨true, 7000⟩, true⟩ = ⟨true, 5, ⟨true, 7000⟩, true⟩ :=
  (start_alarm_spec 99 7 ⟨true, 5, ⟨true, 7000⟩, true⟩).1 rfl

/-- C1: calling `play_sound` while a sound is already playing is a no-op:
the call returns at once, renders nothing, leaves the `playing` flag and the
playback handle unchanged, and logs no error. -/
theorem play_sound_noop_when_playing (sound_config : SoundConfig)
    (alarm_config : AlarmConfig) (st : PlaybackState) (rType rFreq : ℕ)
    (playbackFails : Bool) (hp : st.playing = true) :
    play_sound sound_config alarm_config st rType rFreq playbackFails =
      some { state := st, rendered := none, loggedError := false } := by
  simp [play_sound, hp]

theorem play_sound_noop_when_playing_witness :
    play_sound ⟨["sine"], 400, 800⟩ ⟨false, 3, 30⟩ ⟨true, some 5⟩ 0 0 false =
      some ⟨⟨true, some 5⟩, none, false⟩ :=
  play_sound_noop_when_playing ⟨["sine"], 400, 800⟩ ⟨false, 3, 30⟩ ⟨true, some 5⟩ 0 0 false rfl

/-! Helper computations for the square-wave sample values. -/

lemma quantize_pos_half : quantize (1 * 0.5) = 16383 := by
  unfold quantize
  rw [show ((1:ℝ) * 0.5) * 32767 = 16383.5 by norm_num]
  unfold intTrunc
  rw [if_pos (by norm_num)]
  rw [show ⌊(16383.5 : ℝ)⌋ = 16383 by rw [Int.floor_eq_iff]; constructor <;> norm_num]
  decide

lemma quantize_neg_half : quantize (-1 * 0.5) = -16383 := by
  unfold quantize
  rw [show ((-1:ℝ) * 0.5) * 32767 = -16383.5 by norm_num]
  unfold intTrunc
  rw [if_neg (by norm_num)]
  rw [show ⌈(-16383.5 : ℝ)⌉ = -16383 by rw [Int.ceil_eq_iff]; constructor <;> norm_num]
  decide

lemma quantize_zero_half : quantize (0 * 0.5) = 0 := by
  unfold quantize
  rw [show ((0:ℝ) * 0.5) * 32767 = 0 by norm_num]
  unfold intTrunc
  rw [if_pos le_rfl, Int.floor_zero]
  decide

lemma quantize_npSign (s : ℝ) :
    quantize (npSign s * 0.5) = if s < 0 then -16383 else if 0 < s then 16383 else 0 := by
  unfold npSign
  rcases lt_trichotomy s 0 with h | h | h
  · rw [if_pos h, if_pos h]
    exact quantize_neg_half
  · rw [h]
    rw [if_neg (lt_irrefl (0:ℝ)), if_neg (lt_irrefl (0:ℝ)),
      if_neg (lt_irrefl (0:ℝ)), if_neg (lt_irrefl (0:ℝ))]
    exact quantize_zero_half
  · rw [if_neg (not_lt.mpr h.le), if_neg (not_lt.mpr h.le), if_pos h, if_pos h]
    exact quantize_pos_half

/-- C6: every sample of the rendered square wave is exactly 16383, -16383 or
0, and a sample is 0 exactly where the sine it takes the sign of is 0. -/
theorem square_wave_values (f d : ℝ) :
    (∀ x ∈ generate_square_wave f d, x = 16383 ∨ x = -16383 ∨ x = 0) ∧
    (∀ k : ℕ, squareSample f d k = 0 ↔
        Real.sin (2 * Real.pi * f * timeSample d (numSamples d) k) = 0) := by
  have key : ∀ k : ℕ,
      (squareSample f d k = 16383 ∨ squareSample f d k = -16383 ∨ squareSample f d k = 0) ∧
      (squareSample f d k = 0 ↔
        Real.sin (2 * Real.pi * f * timeSample d (numSamples d) k) = 0) := by
    intro k
    constructor
    · unfold squareSample
      rw [quantize_npSign]
      split_ifs <;> simp
    · unfold squareSample
      rw [quantize_npSign]
      rcases lt_trichotomy (Real.sin (2 * Real.pi * f * timeSample d (numSamples d) k)) 0
        with h | h | h
      · rw [if_pos h]
        constructor
        · intro hc
          exact absurd hc (by decide)
        · intro hc
          rw [hc] at h
          exact absurd h (lt_irrefl 0)
      · rw [if_neg (by rw [h]; exact lt_irrefl (0:ℝ)), if_neg (by rw [h]; exact lt_irrefl (0:ℝ))]
        exact ⟨fun _ => h, fun _ => rfl⟩
      · rw [if_neg (not_lt.mpr h.le), if_pos h]
        constructor
        · intro hc
          exact absurd hc (by decide)
        · intro hc
          rw [hc] at h
          exact absurd h (lt_irrefl 0)
  constructor
  · intro x hx
    simp only [generate_square_wave, List.mem_ofFn] at hx
    obtain ⟨i, rfl⟩ := hx
    exact (key i).1
  · intro k
    exact (key k).2

theorem square_wave_values_witness :
    squareSample 441 1 0 = 16383 ∨ squareSample 441 1 0 = -16383 ∨ squareSample 441 1 0 = 0 :=
  (square_wave_values 441 1).1 (squareSample 441 1 0) (by
    simp only [generate_square_wave, List.mem_ofFn]
    exact ⟨⟨0, by rw [numSamples_one]; norm_num⟩, rfl⟩)

/-- C7: the frequency drawn by `play_sound` via `random.randint` always lies
in the inclusive range `[frequency_min, frequency_max]` when the bounds are
ordered, both endpoints are reachable, and the degenerate range 400..400
always yields 400. -/
theorem randint_spec (lo hi : ℤ) (hle : lo ≤ hi) (r : ℕ) :
    (lo ≤ randint lo hi r ∧ randint lo hi r ≤ hi) ∧
    (∃ r0 : ℕ, randint lo hi r0 = lo) ∧
    (∃ r1 : ℕ, randint lo hi r1 = hi) ∧
    (∀ s : ℕ, randint 400 400 s = 400) := by
  have hm : (0:ℤ) < hi - lo + 1 := by omega
  have h0 : 0 ≤ (r : ℤ) % (hi - lo + 1) := Int.emod_nonneg _ (by omega)
  have h1 : (r : ℤ) % (hi - lo + 1) < hi - lo + 1 := Int.emod_lt_of_pos _ hm
  refine ⟨⟨?_, ?_⟩, ⟨0, ?_⟩, ⟨(hi - lo).toNat, ?_⟩, ?_⟩
  · unfold randint
    linarith
  · unfold randint
    linarith
  · simp [randint]
  · unfold randint
    rw [Int.toNat_of_nonneg (by omega : (0:ℤ) ≤ hi - lo)]
    rw [Int.emod_eq_of_lt (by omega) (by omega)]
    omega
  · intro s
    simp [randint, Int.emod_one]

theorem randint_spec_witness : randint 400 400 5 = 400 :=
  (randint_spec 400 400 le_rfl 5).2.2.2 5

/-- C8: when a playback error occurs inside `play_sound`, the exception is
caught and logged (the call still returns a result instead of propagating),
the `finally` block resets the `playing` flag and clears the handle whether
or not playback failed, and the alarm timer's scheduling state produced by
`alarm_callback` does not depend on any playback outcome: the callback keeps
`active` and the timer's running state unchanged. -/
theorem play_sound_error_handling (sound_config : SoundConfig)
    (alarm_config : AlarmConfig) (st : PlaybackState) (rType rFreq : ℕ)
    (playbackFails : Bool) (selected_type : String)
    (hp : st.playing = false)
    (hsel : sound_config.type[rType % sound_config.type.length]? = some selected_type) :
    play_sound sound_config alarm_config st rType rFreq playbackFails =
      some { state := { playing := false, play_obj := none },
             rendered := some (play_sound_wave selected_type
               ((randint sound_config.frequency_min sound_config.frequency_max rFreq : ℤ) : ℝ)
               alarm_config.duration),
             loggedError := playbackFails } ∧
    (∀ (now interval_s : ℤ) (m : AlarmManagerState),
        (alarm_callback now interval_s m).active = m.active ∧
        (alarm_callback now interval_s m).timer.running = m.timer.running) := by
  constructor
  · simp [play_sound, hp, hsel]
  · intro now interval_s m
    exact ⟨rfl, rfl⟩

theorem play_sound_error_handling_witness :
    play_sound ⟨["sine"], 400, 400⟩ ⟨false, 1, 30⟩ ⟨false, none⟩ 0 0 true =
      some ⟨⟨false, none⟩,
            some (play_sound_wave "sine" ((randint 400 400 0 : ℤ) : ℝ) 1),
            true⟩ :=
  (play_sound_error_handling ⟨["sine"], 400, 400⟩ ⟨false, 1, 30⟩ ⟨false, none⟩ 0 0 true
    "sine" rfl rfl).1

/-- C9: `test_sound` copies only the top-level dictionary, so the sound and
alarm sub-dictionaries it writes through the copy are the live
configuration's own: afterwards the live sound type list is the tested kind
list, the live frequency bounds are the dialog's slider values, and the live
alarm duration is 1.0. -/
theorem test_sound_mutates_live_config (live : ConfigDict) (h : ConfigHeap)
    (sound_type : Option String)
    (sineChecked squareChecked sawtoothChecked triangleChecked : Bool)
    (freq_min_val freq_max_val : ℤ) :
    ((test_sound live h sound_type sineChecked squareChecked sawtoothChecked triangleChecked
        freq_min_val freq_max_val).soundCells live.soundRef).type =
      test_sound_types sound_type sineChecked squareChecked sawtoothChecked triangleChecked ∧
    ((test_sound live h sound_type sineChecked squareChecked sawtoothChecked triangleChecked
        freq_min_val freq_max_val).soundCells live.soundRef).frequency_min = freq_min_val ∧
    ((test_sound live h sound_type sineChecked squareChecked sawtoothChecked triangleChecked
        freq_min_val freq_max_val).soundCells live.soundRef).frequency_max = freq_max_val ∧
    ((test_sound live h sound_type sineChecked squareChecked sawtoothChecked triangleChecked
        freq_min_val freq_max_val).alarmCells live.alarmRef).duration = 1 := by
  refine ⟨?_, ?_, ?_, ?_⟩ <;> simp [test_sound, dictCopy, writeSound, writeAlarm]

/-- C10: the waveform dispatch of `play_sound` ends in an unconditional
`else`: any selected type other than "sine", "square" or "sawtooth" renders
a triangle wave rather than raising an error. -/
theorem unknown_type_renders_triangle (selected_type : String) (frequency duration : ℝ)
    (h1 : selected_type ≠ "sine") (h2 : selected_type ≠ "square")
    (h3 : selected_type ≠ "sawtooth") :
    play_sound_wave selected_type frequency duration =
      generate_triangle_wave frequency duration := by
  unfold play_sound_wave
  rw [if_neg h1, if_neg h2, if_neg h3]

theorem unknown_type_renders_triangle_witness :
    play_sound_wave "banana" 440 1 = generate_triangle_wave 440 1 :=
  unknown_type_renders_triangle "banana" 440 1 (by decide) (by decide) (by decide)

end ADHDClock
